import Mathlib

/-!
Verification development for the `opt::option<T>` container of this repository.

The repository ships its test suites (`src/test_unit.cpp`, `src/test_unit_ext.cpp`,
`src/test_death.cpp`) and a benchmark, but the implementation header
`include/option.hpp` itself is not present under `src/`.  The container, its
combinators and its mutation operations are therefore modelled from the
natural-language specification (spec.md §3, §4.1-§4.4, §7), with the observable
behavior cross-checked against the assertions of the shipped test files.
-/

namespace opt

/-- Modelled from the spec: the core container of `include/option.hpp` (absent
from src).  §3: exactly two states, `Empty` and `Holding(value)`; `present`
is the discriminant, the payload is valid only when present. -/
inductive option (α : Type) : Type where
  | none : option α
  | some (v : α) : option α
deriving DecidableEq

/-- Addresses of external or internal storage, used to model aliases (lvalue
references) for the Reference payload shape and for reference-returning
operations.  spec.md §3: the Reference shape stores an address of an
externally owned payload. -/
abbrev addr := Nat

/-- Modelled from the spec: the panic fault raised on logical use of an empty
container (spec.md §7), optionally carrying a caller-supplied diagnostic
message (`opt::option_panic` in the tests). -/
structure option_panic where
  msg : String
deriving DecidableEq

namespace option

variable {α β γ ε σ : Type}

/-- §4.1: pure presence query. -/
def is_some : option α → Bool
  | none => false
  | some _ => true

/-- §4.1: pure absence query. -/
def is_none : option α → Bool
  | none => true
  | some _ => false

/-- §4.1: `unwrap()` yields the payload, fails with the panic fault when empty. -/
def unwrap : option α → Except option_panic α
  | some v => .ok v
  | none => .error ⟨"called unwrap on a none value"⟩

/-- §4.1: `expect(msg)` is `unwrap()` with a caller-supplied diagnostic message
baked into the fault. -/
def expect (m : String) : option α → Except option_panic α
  | some v => .ok v
  | none => .error ⟨m⟩

/-- §4.1/§7: the unchecked dereference / member-access operators; a fault when
the container is empty (exercised by `src/test_death.cpp`). -/
def deref : option α → Except option_panic α
  | some v => .ok v
  | none => .error ⟨"dereference of a none value"⟩

/-- §4.2: `map(f)`: `Holding(v) → Holding(f(v))`; `Empty → Empty`. -/
def map (o : option α) (f : α → β) : option β :=
  match o with
  | none => none
  | some v => some (f v)

/-- §4.2: `map_or(default, f)`: `f(v)` when holding, else `default`. -/
def map_or (o : option α) (d : β) (f : α → β) : β :=
  match o with
  | none => d
  | some v => f v

/-- §4.2: `map_or_else(default_f, f)`: `f(v)` when holding, else `default_f()`. -/
def map_or_else (o : option α) (df : Unit → β) (f : α → β) : β :=
  match o with
  | none => df ()
  | some v => f v

/-- §4.2: `map_or_default(f)`: as `map_or` with the default-constructed value
as the fallback. -/
def map_or_default [Inhabited β] (o : option α) (f : α → β) : β :=
  match o with
  | none => default
  | some v => f v

/-- §4.2: `and_then(f)` (flat-map): `Holding(v) → f(v)`; `Empty → Empty`. -/
def and_then (o : option α) (f : α → option β) : option β :=
  match o with
  | none => none
  | some v => f v

/-- §4.2: `or_else(f)`: `Holding(v) → Holding(v)` unchanged; `Empty → f()`. -/
def or_else (o : option α) (f : Unit → option α) : option α :=
  match o with
  | none => f ()
  | some v => some v

/-- §4.2: `filter(pred)`: keeps the payload iff the predicate holds. -/
def filter (o : option α) (p : α → Bool) : option α :=
  match o with
  | none => none
  | some v => if p v then some v else none

/-- §4.2: `flatten()`: `Holding(Holding(v)) → Holding(v)`;
`Holding(Empty) → Empty`; `Empty → Empty`. -/
def flatten (o : option (option α)) : option α :=
  match o with
  | none => none
  | some w => w

/-- §4.2: `transpose()`: swaps the nesting of the container and the external
either/result type (modelled by `Except`).  `Empty → Ok(Empty)`. -/
def transpose (o : option (Except ε α)) : Except ε (option α) :=
  match o with
  | none => .ok none
  | some (.ok v) => .ok (some v)
  | some (.error e) => .error e

/-- §4.2: `zip(other)`: both holding → pair; either empty → `Empty`. -/
def zip (o : option α) (w : option β) : option (α × β) :=
  match o, w with
  | some a, some b => some (a, b)
  | _, _ => none

/-- §4.2: `zip_with(other, f)`: as `zip` but combines via `f`. -/
def zip_with (o : option α) (w : option β) (f : α → β → γ) : option γ :=
  match o, w with
  | some a, some b => some (f a b)
  | _, _ => none

/-- §4.2: `unzip()`: `Holding((a,b)) → (Holding(a), Holding(b))`;
`Empty → (Empty, Empty)`. -/
def unzip (o : option (α × β)) : option α × option β :=
  match o with
  | none => (none, none)
  | some p => (some p.1, some p.2)

/-- §4.2: `ok_or(err)`: `Holding(v) → Ok(v)`; `Empty → Err(err)`. -/
def ok_or (o : option α) (e : ε) : Except ε α :=
  match o with
  | none => .error e
  | some v => .ok v

/-- §4.2: `ok_or_else(err_f)`: `Err(err_f())` lazily on the empty path. -/
def ok_or_else (o : option α) (ef : Unit → ε) : Except ε α :=
  match o with
  | none => .error (ef ())
  | some v => .ok v

/-- §4.2: `xor_(other)`: exactly one of the two holding → that one; both
holding or both empty → `Empty`. -/
def xor_ : option α → option α → option α
  | some v, none => some v
  | none, some w => some w
  | _, _ => none

/-- §4.2: `cmp`: total order over containers treating `Empty` as strictly less
than any `Holding` value, falling through to the payload's own three-way
comparison `c` when both hold. -/
def cmp (c : α → α → Ordering) : option α → option α → Ordering
  | none, none => .eq
  | none, some _ => .lt
  | some _, none => .gt
  | some a, some b => c a b

/-- §4.4: equality: both empty, or both holding payloads equal under `e`. -/
def beq (e : α → α → Bool) : option α → option α → Bool
  | none, none => true
  | some a, some b => e a b
  | _, _ => false

/-- §4.2: `min`: the smaller container under `cmp` (`std::min` tie-breaking:
the receiver when not greater). -/
def min (c : α → α → Ordering) (o w : option α) : option α :=
  if cmp c o w = .gt then w else o

/-- §4.2: `max`: the larger container under `cmp` (the receiver when not
less). -/
def max (c : α → α → Ordering) (o w : option α) : option α :=
  if cmp c o w = .lt then w else o

/-- §4.2: `clamp(lo, hi)`: clamps the held value between the held values of
`lo`/`hi` (both assumed holding, per the spec); empty propagates. -/
def clamp (c : α → α → Ordering) (o lo hi : option α) : option α :=
  match o with
  | none => none
  | some v =>
    match lo, hi with
    | some l, some h => some (if c v l = .lt then l else if c v h = .gt then h else v)
    | _, _ => some v

/-- §4.2: `unwrap_or(default)`: payload when holding, else the default.  For
the reference-preserving overload instantiate the payload type with `addr`. -/
def unwrap_or (o : option α) (d : α) : α :=
  match o with
  | none => d
  | some v => v

/-- §4.2: `unwrap_or_else(f)`: payload when holding, else `f()`. -/
def unwrap_or_else (o : option α) (f : Unit → α) : α :=
  match o with
  | none => f ()
  | some v => v

/-- §4.2: `unwrap_or_default()`: payload when holding, else the
default-constructed value. -/
def unwrap_or_default [Inhabited α] (o : option α) : α :=
  match o with
  | none => default
  | some v => v

/-- §4.3: `take()`: extracts the payload leaving the receiver `Empty`; returns
`(returned container, receiver afterwards)`. -/
def take (o : option α) : option α × option α :=
  match o with
  | none => (none, none)
  | some v => (some v, none)

/-- §4.3: `take_if(pred)`: as `take` but only when the predicate holds on the
payload; returns `(returned container, receiver afterwards)`. -/
def take_if (o : option α) (p : α → Bool) : option α × option α :=
  match o with
  | none => (none, none)
  | some v => if p v then (some v, none) else (none, some v)

/-- §4.3: `replace(v)`: sets the receiver to `Holding(v)`, returning what was
previously held; `(returned container, receiver afterwards)`. -/
def replace (o : option α) (v : α) : option α × option α :=
  (o, some v)

/-- §4.3: `insert(v)`: sets the receiver to `Holding(v)`, returning the stored
value (an alias in C++); `(returned value, receiver afterwards)`. -/
def insert (_ : option α) (v : α) : α × option α :=
  (v, some v)

/-- §4.3: `get_or_insert(v)` on the plain state: existing payload when
holding, else inserts `v`; `(returned value, receiver afterwards)`. -/
def get_or_insert (o : option α) (v : α) : α × option α :=
  match o with
  | none => (v, some v)
  | some w => (w, some w)

/-- §4.3: `get_or_insert_with(f)` on the plain state. -/
def get_or_insert_with (o : option α) (f : Unit → α) : α × option α :=
  match o with
  | none => (f (), some (f ()))
  | some w => (w, some w)

/-- §4.3: `get_or_insert_default()` on the plain state. -/
def get_or_insert_default [Inhabited α] (o : option α) : α × option α :=
  match o with
  | none => (default, some (default : α))
  | some w => (w, some w)

/-- §4.3: `reset()`: forces `Empty`. -/
def reset (_ : option α) : option α := none

/-- §4.3: `swap(other)`: exchanges full state between two receivers. -/
def swap (o w : option α) : option α × option α := (w, o)

/-- §4.3: `clone()`: deep copy of the container (presence and payload). -/
def clone (o : option α) : option α :=
  match o with
  | none => none
  | some v => some v

/-- §4.3: `clone_from(source)`: the receiver becomes a copy of the source. -/
def clone_from (_ : option α) (src : option α) : option α :=
  match src with
  | none => none
  | some v => some v

/-- §4.3: `cloned()`: converts a Reference-shape container (payload = aliased
address) into a Value-shape container by copying the referent, read from the
external storage `hm`. -/
def cloned (hm : addr → β) (o : option addr) : option β :=
  match o with
  | none => none
  | some a => some (hm a)

/-- §4.3: `copied()`: as `cloned()`, copying the referent out of the external
storage `hm`. -/
def copied (hm : addr → β) (o : option addr) : option β :=
  match o with
  | none => none
  | some a => some (hm a)

/-- §4.4: conversion to the platform's standard optional type (modelled by
Lean's `Option`), presence and payload preserved. -/
def to_std : option α → Option α
  | none => Option.none
  | some v => Option.some v

/-- §4.4: conversion from the platform's standard optional type. -/
def from_std : Option α → option α
  | Option.none => none
  | Option.some v => some v

/-- §8 laziness instrumentation: `unwrap_or_else` with the fallback factory in
explicit state-passing form, so the number of invocations is observable in
the threaded state. -/
def unwrap_or_else_st (o : option α) (f : σ → α × σ) (s : σ) : α × σ :=
  match o with
  | none => f s
  | some v => (v, s)

/-- §8 laziness instrumentation: `or_else` in state-passing form. -/
def or_else_st (o : option α) (f : σ → option α × σ) (s : σ) : option α × σ :=
  match o with
  | none => f s
  | some v => (some v, s)

/-- §8 laziness instrumentation: `ok_or_else` in state-passing form. -/
def ok_or_else_st (o : option α) (f : σ → ε × σ) (s : σ) : Except ε α × σ :=
  match o with
  | none => ((f s).1 |> Except.error, (f s).2)
  | some v => (.ok v, s)

/-- §8 laziness instrumentation: `get_or_insert_with` in state-passing form;
the result is `((returned value, receiver afterwards), state)`. -/
def get_or_insert_with_st (o : option α) (f : σ → α × σ) (s : σ) : (α × option α) × σ :=
  match o with
  | none => (((f s).1, some (f s).1), (f s).2)
  | some v => ((v, some v), s)

/-- §7 instrumentation of `map`: the payload is accessed only through the
checked `deref` primitive and only under the presence guard, mirroring the
contract that combinators degrade to `Empty` rather than dereference
unchecked. -/
def mapE (o : option α) (f : α → β) : Except option_panic (option β) :=
  if o.is_some then do
    let v ← deref o
    pure (some (f v))
  else pure none

/-- §7 instrumentation of `and_then`. -/
def and_thenE (o : option α) (f : α → option β) : Except option_panic (option β) :=
  if o.is_some then do
    let v ← deref o
    pure (f v)
  else pure none

/-- §7 instrumentation of `or_else`. -/
def or_elseE (o : option α) (f : Unit → option α) : Except option_panic (option α) :=
  if o.is_some then do
    let v ← deref o
    pure (some v)
  else pure (f ())

/-- §7 instrumentation of `filter`. -/
def filterE (o : option α) (p : α → Bool) : Except option_panic (option α) :=
  if o.is_some then do
    let v ← deref o
    pure (if p v then some v else none)
  else pure none

/-- §7 instrumentation of `flatten`. -/
def flattenE (o : option (option α)) : Except option_panic (option α) :=
  if o.is_some then deref o
  else pure none

/-- §7 instrumentation of `zip`. -/
def zipE (o : option α) (w : option β) : Except option_panic (option (α × β)) :=
  if o.is_some && w.is_some then do
    let a ← deref o
    let b ← deref w
    pure (some (a, b))
  else pure none

/-- §7 instrumentation of `xor_`. -/
def xorE (o w : option α) : Except option_panic (option α) :=
  if o.is_some && !w.is_some then do
    let v ← deref o
    pure (some v)
  else if !o.is_some && w.is_some then do
    let v ← deref w
    pure (some v)
  else pure none

/-- §7 instrumentation of `take`. -/
def takeE (o : option α) : Except option_panic (option α × option α) :=
  if o.is_some then do
    let v ← deref o
    pure (some v, none)
  else pure (none, none)

/-- §7 instrumentation of `take_if`. -/
def take_ifE (o : option α) (p : α → Bool) : Except option_panic (option α × option α) :=
  if o.is_some then do
    let v ← deref o
    pure (if p v then (some v, none) else (none, some v))
  else pure (none, none)

/-- §7 instrumentation of `replace`. -/
def replaceE (o : option α) (v : α) : Except option_panic (option α × option α) :=
  pure (o, some v)

/-- §7 instrumentation of `get_or_insert`. -/
def get_or_insertE (o : option α) (v : α) : Except option_panic (α × option α) :=
  if o.is_some then do
    let w ← deref o
    pure (w, some w)
  else pure (v, some v)

/-- §7 instrumentation of `map_or`. -/
def map_orE (o : option α) (d : β) (f : α → β) : Except option_panic β :=
  if o.is_some then do
    let v ← deref o
    pure (f v)
  else pure d

/-- §7 instrumentation of `map_or_else`. -/
def map_or_elseE (o : option α) (df : Unit → β) (f : α → β) :
    Except option_panic β :=
  if o.is_some then do
    let v ← deref o
    pure (f v)
  else pure (df ())

/-- §7 instrumentation of `map_or_default`. -/
def map_or_defaultE [Inhabited β] (o : option α) (f : α → β) :
    Except option_panic β :=
  if o.is_some then do
    let v ← deref o
    pure (f v)
  else pure default

/-- §7 instrumentation of `transpose`. -/
def transposeE (o : option (Except ε α)) :
    Except option_panic (Except ε (option α)) :=
  if o.is_some then do
    let r ← deref o
    pure (match r with
      | .ok v => .ok (some v)
      | .error e => .error e)
  else pure (.ok none)

/-- §7 instrumentation of `zip_with`. -/
def zip_withE (o : option α) (w : option β) (f : α → β → γ) :
    Except option_panic (option γ) :=
  if o.is_some && w.is_some then do
    let a ← deref o
    let b ← deref w
    pure (some (f a b))
  else pure none

/-- §7 instrumentation of `unzip`. -/
def unzipE (o : option (α × β)) :
    Except option_panic (option α × option β) :=
  if o.is_some then do
    let q ← deref o
    pure (some q.1, some q.2)
  else pure (none, none)

/-- §7 instrumentation of `ok_or`. -/
def ok_orE (o : option α) (e : ε) : Except option_panic (Except ε α) :=
  if o.is_some then do
    let v ← deref o
    pure (.ok v)
  else pure (.error e)

/-- §7 instrumentation of `ok_or_else`. -/
def ok_or_elseE (o : option α) (ef : Unit → ε) :
    Except option_panic (Except ε α) :=
  if o.is_some then do
    let v ← deref o
    pure (.ok v)
  else pure (.error (ef ()))

/-- §7 instrumentation of `clamp`. -/
def clampE (c : α → α → Ordering) (o lo hi : option α) :
    Except option_panic (option α) :=
  if o.is_some then do
    let v ← deref o
    if lo.is_some && hi.is_some then do
      let l ← deref lo
      let h ← deref hi
      pure (some (if c v l = .lt then l else if c v h = .gt then h else v))
    else pure (some v)
  else pure none

/-- §7 instrumentation of `cmp`. -/
def cmpE (c : α → α → Ordering) (o w : option α) :
    Except option_panic Ordering :=
  if o.is_some then
    if w.is_some then do
      let a ← deref o
      let b ← deref w
      pure (c a b)
    else pure .gt
  else if w.is_some then pure .lt else pure .eq

/-- §7 instrumentation of `min`. -/
def minE (c : α → α → Ordering) (o w : option α) :
    Except option_panic (option α) := do
  let r ← cmpE c o w
  pure (if r = .gt then w else o)

/-- §7 instrumentation of `max`. -/
def maxE (c : α → α → Ordering) (o w : option α) :
    Except option_panic (option α) := do
  let r ← cmpE c o w
  pure (if r = .lt then w else o)

/-- §7 instrumentation of `insert`. -/
def insertE (_ : option α) (v : α) : Except option_panic (α × option α) :=
  pure (v, some v)

/-- §7 instrumentation of `get_or_insert_with`. -/
def get_or_insert_withE (o : option α) (f : Unit → α) :
    Except option_panic (α × option α) :=
  if o.is_some then do
    let w ← deref o
    pure (w, some w)
  else pure (f (), some (f ()))

/-- §7 instrumentation of `get_or_insert_default`. -/
def get_or_insert_defaultE [Inhabited α] (o : option α) :
    Except option_panic (α × option α) :=
  if o.is_some then do
    let w ← deref o
    pure (w, some w)
  else pure (default, some (default : α))

/-- §7 instrumentation of `swap`. -/
def swapE (o w : option α) : Except option_panic (option α × option α) :=
  pure (w, o)

/-- §7 instrumentation of `reset`. -/
def resetE (_ : option α) : Except option_panic (option α) :=
  pure none

/-- §7 instrumentation of `clone`. -/
def cloneE (o : option α) : Except option_panic (option α) :=
  if o.is_some then do
    let v ← deref o
    pure (some v)
  else pure none

/-- §7 instrumentation of `clone_from`. -/
def clone_fromE (_ : option α) (src : option α) :
    Except option_panic (option α) :=
  if src.is_some then do
    let v ← deref src
    pure (some v)
  else pure none

/-- §7 instrumentation of `cloned`. -/
def clonedE (hm : addr → β) (o : option addr) :
    Except option_panic (option β) :=
  if o.is_some then do
    let a ← deref o
    pure (some (hm a))
  else pure none

/-- §7 instrumentation of `copied`. -/
def copiedE (hm : addr → β) (o : option addr) :
    Except option_panic (option β) :=
  if o.is_some then do
    let a ← deref o
    pure (some (hm a))
  else pure none

/-- §3 transitions: move-construction from a container; the payload is
transferred via `mv` (the payload type's move constructor), the moved-from
container becomes `Empty`.  Result is `(destination, moved-from source)`. -/
def move_construct (mv : α → α) : option α → option α × option α
  | none => (none, none)
  | some v => (some (mv v), none)

/-- §3 transitions: move-assignment; the destination takes the transferred
payload (or becomes `Empty` on assignment from an empty source), the
moved-from source becomes `Empty`.  Result is `(destination, source)`. -/
def move_assign (mv : α → α) (_ : option α) : option α → option α × option α
  | none => (none, none)
  | some v => (some (mv v), none)

end option

/-- Modelled from the spec: a Value-shape container located in memory: the
address of its internal payload slot (the C++ tests observe it as the address
behind the unchecked dereference) together with its logical state.  Used for
the alias-returning `get_or_insert` family of §4.3. -/
structure vopt (α : Type) : Type where
  payload_addr : addr
  st : option α
deriving DecidableEq

namespace vopt

variable {α : Type}

/-- §4.3: `get_or_insert(v)`: if empty, insert `v` and return an alias to it;
if already holding, return an alias to the existing value without overwriting.
Result is `(returned alias, container afterwards)`. -/
def get_or_insert (o : vopt α) (v : α) : addr × vopt α :=
  match o.st with
  | .none => (o.payload_addr, ⟨o.payload_addr, .some v⟩)
  | .some _ => (o.payload_addr, o)

/-- §4.3: `get_or_insert_with(f)` on the located container. -/
def get_or_insert_with (o : vopt α) (f : Unit → α) : addr × vopt α :=
  match o.st with
  | .none => (o.payload_addr, ⟨o.payload_addr, .some (f ())⟩)
  | .some _ => (o.payload_addr, o)

/-- §4.3: `get_or_insert_default()` on the located container. -/
def get_or_insert_default [Inhabited α] (o : vopt α) : addr × vopt α :=
  match o.st with
  | .none => (o.payload_addr, ⟨o.payload_addr, .some (default : α)⟩)
  | .some _ => (o.payload_addr, o)

end vopt

/-- The copy/move-counting payload helper from `src/test_unit_ext.cpp`
(struct `Tracked`): each copy increments `copies`, each move increments
`moves`, the carried value is untouched by either. -/
structure Tracked : Type where
  copies : Nat
  moves : Nat
  value : Int
deriving DecidableEq

/-- The copy constructor of `Tracked` in `src/test_unit_ext.cpp`. -/
def Tracked.copy (t : Tracked) : Tracked :=
  ⟨t.copies + 1, t.moves, t.value⟩

/-- The move constructor of `Tracked` in `src/test_unit_ext.cpp`. -/
def Tracked.move (t : Tracked) : Tracked :=
  ⟨t.copies, t.moves + 1, t.value⟩

/-- Modelled from the spec: a raw pointer payload; presence of the container
is orthogonal to nullness of the pointer (§3, Pointer-payload shape). -/
inductive ptr : Type where
  | null : ptr
  | addr_of (a : addr) : ptr
deriving DecidableEq

/-- C1: Reference-category preservation for the fallback operations — on the
Reference shape (payload = aliased address), when the holding branch yields an
alias to address `A` and the fallback branch an alias to address `B`,
`unwrap_or`, `map_or`, `map_or_else` and `unwrap_or_else` return the alias of
the branch that fired: address `A` when the receiver is holding, address `B`
when it is empty — address identity, not a copy. -/
theorem c1_reference_category_preservation (A B : addr) :
    (option.some A).unwrap_or B = A ∧
    (option.none : option addr).unwrap_or B = B ∧
    (option.some A).map_or B (fun a => a) = A ∧
    (∀ f : addr → addr, (option.none : option addr).map_or B f = B) ∧
    (option.some A).map_or_else (fun _ => B) (fun a => a) = A ∧
    (∀ f : addr → addr, (option.none : option addr).map_or_else (fun _ => B) f = B) ∧
    (option.some A).unwrap_or_else (fun _ => B) = A ∧
    (option.none : option addr).unwrap_or_else (fun _ => B) = B := by
  exact ⟨rfl, rfl, rfl, fun _ => rfl, rfl, fun _ => rfl, rfl, rfl⟩

/-- C1 witness: the fallback alias selection at concrete addresses. -/
theorem c1_reference_category_preservation_witness :
    (option.some (1 : addr)).unwrap_or 2 = 1 :=
  (c1_reference_category_preservation 1 2).1

/-- C2 counterexample: `xor_` on an empty receiver yields the other (holding)
operand, and `or_else` on an empty receiver yields the fallback's result —
neither yields `Empty` as the claim states. -/
theorem c2_empty_propagation_counterexample :
    (option.none : option Int).xor_ (option.some 2) ≠ option.none ∧
    (option.none : option Int).or_else (fun _ => option.some 99) ≠ option.none := by
  constructor <;> decide

/-- C2 (amended): applying any combinator of §4.2 other than `or_else` and
`xor_` to an empty container yields the empty result — `Empty` for
container-returning combinators, `(Empty, Empty)` for `unzip`, `Ok(Empty)`
for `transpose`, `Err(err)` for the `ok_or` family, and the supplied default
for the `map_or` family; `or_else` on an empty receiver yields `f()`, and
`xor_` on an empty receiver yields the other operand. -/
theorem c2_empty_propagation_amended {α β γ ε : Type} [Inhabited β]
    (d : β) (f : α → β) (df : Unit → β) (g : α → option β) (fb : Unit → option α)
    (p : α → Bool) (e : ε) (ef : Unit → ε) (w : option α) (wb : option β)
    (fz : α → β → γ) (c : α → α → Ordering) (lo hi : option α) :
    (option.none : option α).map f = option.none ∧
    (option.none : option α).map_or d f = d ∧
    (option.none : option α).map_or_else df f = df () ∧
    (option.none : option α).map_or_default f = (default : β) ∧
    (option.none : option α).and_then g = option.none ∧
    (option.none : option α).or_else fb = fb () ∧
    (option.none : option α).filter p = option.none ∧
    (option.none : option (option α)).flatten = option.none ∧
    (option.none : option (Except ε α)).transpose = .ok option.none ∧
    (option.none : option α).zip wb = option.none ∧
    (option.none : option α).zip_with wb fz = option.none ∧
    (option.none : option (α × β)).unzip = (option.none, option.none) ∧
    (option.none : option α).ok_or e = .error e ∧
    (option.none : option α).ok_or_else ef = .error (ef ()) ∧
    (option.none : option α).xor_ w = w ∧
    (option.none : option α).clamp c lo hi = option.none := by
  refine ⟨rfl, rfl, rfl, rfl, rfl, rfl, rfl, rfl, rfl, ?_, ?_, rfl, rfl, rfl, ?_, rfl⟩
  · cases wb <;> rfl
  · cases wb <;> rfl
  · cases w <;> rfl

/-- C2 witness: the amended empty-propagation theorem at concrete types. -/
theorem c2_empty_propagation_amended_witness :
    (option.none : option Int).map (fun n => n) = option.none :=
  (c2_empty_propagation_amended (γ := Int) (0 : Int) (fun n => n) (fun _ => 0)
    (fun _ => option.none) (fun _ => option.none) (fun _ => true) (0 : Int)
    (fun _ => 0) option.none option.none (fun a _ => a) (fun _ _ => Ordering.eq)
    option.none option.none).1

/-- C3: Laziness — with the factory instrumented to count its own invocations
in a threaded counter, `get_or_insert_with`, `or_else`, `unwrap_or_else` and
`ok_or_else` invoke the factory exactly zero times when the receiver holds a
value and exactly once when it is empty. -/
theorem c3_laziness {α ε : Type} (o : option α) (g : Nat → α)
    (ge : Nat → ε) (go : Nat → option α) (s : Nat) :
    (o.get_or_insert_with_st (fun n => (g n, n + 1)) s).2
      = s + (if o.is_some then 0 else 1) ∧
    (o.or_else_st (fun n => (go n, n + 1)) s).2
      = s + (if o.is_some then 0 else 1) ∧
    (o.unwrap_or_else_st (fun n => (g n, n + 1)) s).2
      = s + (if o.is_some then 0 else 1) ∧
    (o.ok_or_else_st (fun n => (ge n, n + 1)) s).2
      = s + (if o.is_some then 0 else 1) := by
  cases o <;> simp [option.get_or_insert_with_st, option.or_else_st,
    option.unwrap_or_else_st, option.ok_or_else_st, option.is_some]

/-- C3 witness: the invocation count on a concrete holding receiver. -/
theorem c3_laziness_witness :
    ((option.some (1 : Int)).get_or_insert_with_st (fun n => (0, n + 1)) 0).2
      = 0 + (if (option.some (1 : Int)).is_some then 0 else 1) :=
  (c3_laziness (option.some (1 : Int)) (fun _ => 0) (fun _ => (0 : Int))
    (fun _ => option.none) 0).1

/-- C4: `get_or_insert(w)`, `get_or_insert_with(f)` and
`get_or_insert_default()` leave an already-held value unchanged (no overwrite)
and return an alias to the container's existing payload slot; on an empty
container they insert `w` / `f()` / the default value, the container becomes
holding, and the returned alias refers to the newly stored payload inside the
container. -/
theorem c4_get_or_insert_family {α : Type} [Inhabited α]
    (a : addr) (v w : α) (f : Unit → α) :
    vopt.get_or_insert ⟨a, option.some v⟩ w = (a, ⟨a, option.some v⟩) ∧
    vopt.get_or_insert ⟨a, option.none⟩ w = (a, ⟨a, option.some w⟩) ∧
    vopt.get_or_insert_with ⟨a, option.some v⟩ f = (a, ⟨a, option.some v⟩) ∧
    vopt.get_or_insert_with ⟨a, option.none⟩ f = (a, ⟨a, option.some (f ())⟩) ∧
    vopt.get_or_insert_default ⟨a, option.some v⟩ = (a, ⟨a, option.some v⟩) ∧
    vopt.get_or_insert_default (⟨a, option.none⟩ : vopt α)
      = (a, ⟨a, option.some default⟩) := by
  exact ⟨rfl, rfl, rfl, rfl, rfl, rfl⟩

/-- C4 witness: the holding container keeps its payload and hands back the
payload-slot address, at concrete inputs. -/
theorem c4_get_or_insert_family_witness :
    vopt.get_or_insert ⟨0, option.some (1 : Int)⟩ 2 = (0, ⟨0, option.some 1⟩) :=
  (c4_get_or_insert_family 0 (1 : Int) 2 (fun _ => 3)).1

/-- C5: Equality, ordering and `cmp` form a total order on containers in which
`Empty` is strictly less than `Holding(x)` for every payload `x`, two holding
containers compare by the payloads' own three-way comparison, and two
containers are equal iff both are empty or both hold payloads that compare
equal; `min`/`max` select accordingly, so the minimum of an empty and a
holding container is the empty one. -/
theorem c5_total_order {α : Type} [LinearOrder α] :
    (∀ x : α, option.cmp compare option.none (option.some x) = .lt
      ∧ option.cmp compare (option.some x) option.none = .gt) ∧
    (∀ a b : α, option.cmp compare (option.some a) (option.some b) = compare a b) ∧
    (∀ o w : option α, option.cmp compare o w = .eq ↔ o = w) ∧
    (∀ o w : option α, option.beq (fun a b => decide (a = b)) o w = true ↔ o = w) ∧
    (∀ o w : option α, option.cmp compare o w = .lt ↔ option.cmp compare w o = .gt) ∧
    (∀ o w u : option α, option.cmp compare o w = .lt →
      option.cmp compare w u = .lt → option.cmp compare o u = .lt) ∧
    (∀ x : α, option.min compare option.none (option.some x) = option.none
      ∧ option.min compare (option.some x) option.none = option.none
      ∧ option.max compare option.none (option.some x) = option.some x
      ∧ option.max compare (option.some x) option.none = option.some x) ∧
    (∀ a b : α, option.min compare (option.some a) (option.some b)
        = option.some (Min.min a b)
      ∧ option.max compare (option.some a) (option.some b)
        = option.some (Max.max a b)) := by
  refine ⟨fun x => ⟨rfl, rfl⟩, fun a b => rfl, ?_, ?_, ?_, ?_, ?_, ?_⟩
  · intro o w
    cases o <;> cases w <;> simp [option.cmp, compare_eq_iff_eq]
  · intro o w
    cases o <;> cases w <;> simp [option.beq]
  · intro o w
    cases o <;> cases w <;>
      simp [option.cmp, compare_lt_iff_lt, compare_gt_iff_gt, gt_iff_lt]
  · intro o w u h1 h2
    cases o with
    | none =>
      cases u with
      | some c => rfl
      | none =>
        cases w with
        | none => simp [option.cmp] at h1
        | some b => simp [option.cmp] at h2
    | some a =>
      cases w with
      | none => simp [option.cmp] at h1
      | some b =>
        cases u with
        | none => simp [option.cmp] at h2
        | some c =>
          exact compare_lt_iff_lt.2
            (lt_trans (compare_lt_iff_lt.1 h1) (compare_lt_iff_lt.1 h2))
  · intro x
    refine ⟨?_, ?_, ?_, ?_⟩ <;> simp [option.min, option.max, option.cmp]
  · intro a b
    constructor
    · by_cases hba : b < a
      · have hc : compare a b = .gt := compare_gt_iff_gt.2 hba
        simp [option.min, option.cmp, hc, min_eq_right (le_of_lt hba)]
      · have hc : compare a b ≠ .gt := by
          simp [compare_gt_iff_gt]
          exact le_of_not_lt hba
        simp [option.min, option.cmp, hc, min_eq_left (le_of_not_lt hba)]
    · by_cases hab : a < b
      · have hc : compare a b = .lt := compare_lt_iff_lt.2 hab
        simp [option.max, option.cmp, hc, max_eq_right (le_of_lt hab)]
      · have hc : compare a b ≠ .lt := by
          simp [compare_lt_iff_lt]
          exact le_of_not_lt hab
        simp [option.max, option.cmp, hc, max_eq_left (le_of_not_lt hab)]

/-- C5 witness: the total-order theorem applied to `Int` at concrete inputs. -/
theorem c5_total_order_witness :
    option.cmp compare (option.none : option Int) (option.some 5) = .lt :=
  ((c5_total_order (α := Int)).1 5).1

/-- C6: Round trip through the platform's standard optional type: `Holding(v)`
converts to an engaged optional holding `v` and back to `Holding(v)`, `Empty`
converts to an empty optional and back to `Empty`; presence and payload are
preserved exactly in both directions for every container and every optional. -/
theorem c6_std_optional_round_trip {α : Type} (v : α) :
    (option.some v).to_std = Option.some v ∧
    option.from_std (Option.some v) = option.some v ∧
    option.from_std ((option.some v).to_std) = option.some v ∧
    (option.none : option α).to_std = Option.none ∧
    option.from_std (Option.none : Option α) = option.none ∧
    option.from_std ((option.none : option α).to_std) = option.none ∧
    (∀ o : option α, option.from_std o.to_std = o) ∧
    (∀ so : Option α, (option.from_std so).to_std = so) := by
  refine ⟨rfl, rfl, rfl, rfl, rfl, rfl, ?_, ?_⟩
  · intro o; cases o <;> rfl
  · intro so; cases so <;> rfl

/-- C6 witness: the round trip at a concrete payload. -/
theorem c6_std_optional_round_trip_witness :
    (option.some (5 : Int)).to_std = Option.some 5 :=
  (c6_std_optional_round_trip (5 : Int)).1

/-- C7: `unwrap`, `expect` (with its caller-supplied diagnostic message) and
the unchecked dereference raise the logical-use-on-empty fault exactly when
the container is empty, and yield the payload without fault on a holding
container; every instrumented §4.2/§4.3 operation — the map/map_or family,
and_then, or_else, filter, flatten, transpose, zip, zip_with, unzip, the
ok_or family, xor_, clamp, cmp, min, max, take, take_if, replace, insert,
the get_or_insert family, swap, reset and the clone/copy family — accesses
the payload only under a presence guard, never raises the fault, and agrees
with its pure definition. -/
theorem c7_panic_discipline {α β γ ε : Type} [Inhabited α] [Inhabited β]
    (v : α) (m : String) (f : α → β) (g : α → option β) (fb : Unit → option α)
    (p : α → Bool) (x : α) (d : β) (df : Unit → β) (e : ε) (ef : Unit → ε)
    (fz : α → β → γ) (c : α → α → Ordering) (gw : Unit → α) (hm : addr → β) :
    (∀ o : option α, (∃ e, o.unwrap = .error e) ↔ o = option.none) ∧
    (option.some v).unwrap = .ok v ∧
    (∀ o : option α, (∃ e, o.expect m = .error e) ↔ o = option.none) ∧
    (option.some v).expect m = .ok v ∧
    (option.none : option α).expect m = .error ⟨m⟩ ∧
    (∀ o : option α, (∃ e, o.deref = .error e) ↔ o = option.none) ∧
    (option.some v).deref = .ok v ∧
    (∀ o : option α, o.mapE f = .ok (o.map f)) ∧
    (∀ o : option α, o.and_thenE g = .ok (o.and_then g)) ∧
    (∀ o : option α, o.or_elseE fb = .ok (o.or_else fb)) ∧
    (∀ o : option α, o.filterE p = .ok (o.filter p)) ∧
    (∀ o : option (option α), o.flattenE = .ok o.flatten) ∧
    (∀ o w : option α, o.zipE w = .ok (o.zip w)) ∧
    (∀ o w : option α, o.xorE w = .ok (o.xor_ w)) ∧
    (∀ o : option α, o.takeE = .ok o.take) ∧
    (∀ o : option α, o.take_ifE p = .ok (o.take_if p)) ∧
    (∀ o : option α, o.replaceE x = .ok (o.replace x)) ∧
    (∀ o : option α, o.get_or_insertE x = .ok (o.get_or_insert x)) ∧
    (∀ o : option α, o.map_orE d f = .ok (o.map_or d f)) ∧
    (∀ o : option α, o.map_or_elseE df f = .ok (o.map_or_else df f)) ∧
    (∀ o : option α, o.map_or_defaultE f = .ok (o.map_or_default f)) ∧
    (∀ o : option (Except ε α), o.transposeE = .ok o.transpose) ∧
    (∀ (o : option α) (w : option β), o.zip_withE w fz = .ok (o.zip_with w fz)) ∧
    (∀ o : option (α × β), o.unzipE = .ok o.unzip) ∧
    (∀ o : option α, o.ok_orE e = .ok (o.ok_or e)) ∧
    (∀ o : option α, o.ok_or_elseE ef = .ok (o.ok_or_else ef)) ∧
    (∀ o lo hi : option α, option.clampE c o lo hi = .ok (o.clamp c lo hi)) ∧
    (∀ o w : option α, option.cmpE c o w = .ok (option.cmp c o w)) ∧
    (∀ o w : option α, option.minE c o w = .ok (option.min c o w)) ∧
    (∀ o w : option α, option.maxE c o w = .ok (option.max c o w)) ∧
    (∀ o : option α, o.insertE x = .ok (o.insert x)) ∧
    (∀ o : option α, o.get_or_insert_withE gw = .ok (o.get_or_insert_with gw)) ∧
    (∀ o : option α, o.get_or_insert_defaultE = .ok o.get_or_insert_default) ∧
    (∀ o w : option α, o.swapE w = .ok (o.swap w)) ∧
    (∀ o : option α, o.resetE = .ok o.reset) ∧
    (∀ o : option α, o.cloneE = .ok o.clone) ∧
    (∀ dst src : option α, option.clone_fromE dst src
      = .ok (option.clone_from dst src)) ∧
    (∀ o : option addr, option.clonedE hm o = .ok (option.cloned hm o)) ∧
    (∀ o : option addr, option.copiedE hm o = .ok (option.copied hm o)) := by
  refine ⟨?_, rfl, ?_, rfl, rfl, ?_, rfl, ?_, ?_, ?_, ?_, ?_, ?_, ?_, ?_, ?_,
    ?_, ?_, ?_, ?_, ?_, ?_, ?_, ?_, ?_, ?_, ?_, ?_, ?_, ?_, ?_, ?_, ?_, ?_,
    ?_, ?_, ?_, ?_, ?_⟩
  · intro o; cases o <;> simp [option.unwrap]
  · intro o; cases o <;> simp [option.expect]
  · intro o; cases o <;> simp [option.deref]
  · intro o; cases o <;> rfl
  · intro o; cases o <;> rfl
  · intro o; cases o <;> rfl
  · intro o; cases o <;> rfl
  · intro o; cases o <;> rfl
  · intro o w; cases o <;> cases w <;> rfl
  · intro o w; cases o <;> cases w <;> rfl
  · intro o; cases o <;> rfl
  · intro o; cases o <;> rfl
  · intro o; cases o <;> rfl
  · intro o; cases o <;> rfl
  · intro o; cases o <;> rfl
  · intro o; cases o <;> rfl
  · intro o; cases o <;> rfl
  · intro o
    cases o with
    | none => rfl
    | some r => cases r <;> rfl
  · intro o w; cases o <;> cases w <;> rfl
  · intro o; cases o <;> rfl
  · intro o; cases o <;> rfl
  · intro o; cases o <;> rfl
  · intro o lo hi; cases o <;> cases lo <;> cases hi <;> rfl
  · intro o w; cases o <;> cases w <;> rfl
  · intro o w; cases o <;> cases w <;> rfl
  · intro o w; cases o <;> cases w <;> rfl
  · intro o; rfl
  · intro o; cases o <;> rfl
  · intro o; cases o <;> rfl
  · intro o w; rfl
  · intro o; rfl
  · intro o; cases o <;> rfl
  · intro dst src; cases src <;> rfl
  · intro o; cases o <;> rfl
  · intro o; cases o <;> rfl

/-- C7 witness: `unwrap` yields the payload without fault on a concrete
holding container. -/
theorem c7_panic_discipline_witness :
    (option.some (5 : Int)).unwrap = .ok 5 :=
  (c7_panic_discipline (5 : Int) "diag" (fun n => n) (fun _ => option.none)
    (fun _ => option.none) (fun _ => true) 0 0 (fun _ => 0) (0 : Int)
    (fun _ => 0) (fun a _ => a) (fun _ _ => Ordering.eq) (fun _ => 0)
    (fun _ => 0)).2.1

/-- C8: Move-construction and move-assignment from a holding container leave
the moved-from container `Empty` and give the destination the transferred
payload: the value is carried over by the payload's move constructor and no
copy is made (the payload's copy count is unchanged by the transfer). -/
theorem c8_move_transfer (t : Tracked) (dst : option Tracked) :
    option.move_construct Tracked.move (option.some t)
      = (option.some (Tracked.move t), option.none) ∧
    option.move_assign Tracked.move dst (option.some t)
      = (option.some (Tracked.move t), option.none) ∧
    (Tracked.move t).value = t.value ∧
    (Tracked.move t).copies = t.copies := by
  exact ⟨rfl, rfl, rfl, rfl⟩

/-- C8 witness: the transfer at a concrete tracked payload. -/
theorem c8_move_transfer_witness :
    option.move_construct Tracked.move (option.some ⟨0, 0, 7⟩)
      = (option.some (Tracked.move ⟨0, 0, 7⟩), option.none) :=
  (c8_move_transfer ⟨0, 0, 7⟩ option.none).1

/-- C9: For the pointer payload shape, presence is orthogonal to nullness: a
container constructed holding the null pointer is present, its held payload
equals the null pointer, and it compares unequal to the empty container of
the same pointer type. -/
theorem c9_null_pointer_present :
    (option.some ptr.null).is_some = true ∧
    (option.some ptr.null).unwrap = .ok ptr.null ∧
    option.beq (fun a b => decide (a = b)) (option.some ptr.null) option.none
      = false ∧
    option.some ptr.null ≠ (option.none : option ptr) := by
  refine ⟨rfl, rfl, rfl, by decide⟩

/-- C10: On a holding Reference-shape container (payload = the aliased
address), `take` and, when the predicate on the referent fires, `take_if`
return a container holding the same address — an alias to the same referent,
not a copy — while the receiver becomes empty. -/
theorem c10_take_preserves_alias (A : addr) (h : addr → Int) (p : Int → Bool)
    (hp : p (h A) = true) :
    (option.some A).take = (option.some A, option.none) ∧
    (option.some A).take_if (fun a => p (h a)) = (option.some A, option.none) := by
  refine ⟨rfl, ?_⟩
  simp [option.take_if, hp]

/-- C10 witness: the alias-preserving extraction at a concrete address, heap
and predicate. -/
theorem c10_take_preserves_alias_witness :
    (option.some (3 : addr)).take = (option.some 3, option.none) ∧
    (option.some (3 : addr)).take_if (fun a => decide (0 < (a : Int)))
      = (option.some 3, option.none) :=
  c10_take_preserves_alias 3 (fun b => (b : Int)) (fun z => decide (0 < z))
    (by decide)

end opt
